import Mathlib

/-!
Verification of the analysis/scoring core of PG Weather Triage
(`scripts/analysis.py`), shallowly embedded in Lean 4.

Numeric values are modelled as exact rationals (`ℚ`); nullable values as
`Option ℚ`.  The Deardorff W* computation takes a real cube root, so that
single function is modelled over `ℝ`.  Python `round` is modelled as
round-half-to-even, matching the ideal decimal semantics of the builtin.
-/

/-- Python `round(x)` to an integer: nearest integer, ties to even. -/
def pyRound0 (x : ℚ) : ℤ :=
  let n : ℤ := ⌊x + 1/2⌋
  if x + 1/2 = (n : ℚ) ∧ n % 2 ≠ 0 then n - 1 else n

/-- Python `round(x, d)`: rounding to `d` decimal places, ties to even. -/
def pyRoundTo (d : ℕ) (x : ℚ) : ℚ :=
  (pyRound0 (x * 10 ^ d) : ℚ) / 10 ^ d

open Classical in
/-- Python `round(x)` on a real argument (used only under the real cube root
of `estimate_wstar`): nearest integer, ties to even. -/
noncomputable def pyRound0R (x : ℝ) : ℤ :=
  let n : ℤ := ⌊x + 1/2⌋
  if x + 1/2 = (n : ℝ) ∧ n % 2 ≠ 0 then n - 1 else n

/-- Python `round(x, 2)` on a real argument. -/
noncomputable def pyRound2R (x : ℝ) : ℝ :=
  (pyRound0R (x * 100) : ℝ) / 100

/-- `estimate_cloudbase_msl` (analysis.py lines 126-129).  The Python body
checks only `temp_c` and `dewpoint_c` for `None`; when both are present but
`elev_m` is `None`, the expression `125.0 * (temp_c - dewpoint_c) + elev_m`
raises `TypeError`, modelled here as `Except.error`. -/
def estimate_cloudbase_msl (temp_c dewpoint_c elev_m : Option ℚ) :
    Except Unit (Option ℤ) :=
  match temp_c, dewpoint_c with
  | none, _ => .ok none
  | some _, none => .ok none
  | some t, some d =>
    match elev_m with
    | some e => .ok (some (pyRound0 (125 * (t - d) + e)))
    | none => .error ()

/-- The value branch of `estimate_cloudbase_msl` for a known elevation,
as used by the profile builders (they always pass `loc["elev"]`). -/
def cloudbaseVal (temp_c dewpoint_c : Option ℚ) (elev_m : ℚ) : Option ℤ :=
  match temp_c, dewpoint_c with
  | some t, some d => some (pyRound0 (125 * (t - d) + elev_m))
  | _, _ => none

/-- `lapse_rate` (analysis.py lines 132-135). -/
def lapse_rate (t850 t700 : Option ℚ) : Option ℚ :=
  match t850, t700 with
  | some a, some b => some (pyRoundTo 1 ((a - b) / 1.5))
  | _, _ => none

/-- The buoyancy argument of `estimate_wstar`:
`(9.81 / T_K) * bl_h * (0.4 * sw_rad) / (1.1 * 1005.0)`. -/
def argQ (bl sw t : ℚ) : ℚ :=
  (981/100 / (t + 27315/100)) * bl * ((2/5) * sw) / ((11/10) * 1005)

/-- The value returned by `estimate_wstar` on the positive-argument branch:
`round(arg ** (1/3), 2)`. -/
noncomputable def wstarVal (bl sw t : ℚ) : ℝ :=
  pyRound2R (((argQ bl sw t : ℚ) : ℝ) ^ ((1 : ℝ)/3))

/-- `estimate_wstar` (analysis.py lines 138-147).  `not bl_h` in Python is
true for `None` and for `0`, hence the explicit `= 0` disjuncts. -/
noncomputable def estimate_wstar (bl_h sw_rad temp_c : Option ℚ) : Option ℝ :=
  match bl_h, sw_rad, temp_c with
  | some bl, some sw, some t =>
    if bl = 0 ∨ bl ≤ 10 ∨ sw = 0 ∨ sw ≤ 10 then none
    else if t + 27315/100 < 200 then none
    else if 0 < argQ bl sw t then some (wstarVal bl sw t) else none
  | _, _, _ => none

/-- `_avg` (analysis.py lines 190-194): average two values rounded to
`decimals`, or whichever is not `None`, or `None`. -/
def _avg (a b : Option ℚ) (decimals : ℕ) : Option ℚ :=
  match a, b with
  | some x, some y => some (pyRoundTo decimals ((x + y) / 2))
  | some x, none => some x
  | none, some y => some y
  | none, none => none

/-- One per-hour record of an hourly profile, restricted to the fields read
by the thermal-window detector, the flyable-window detector and the flag
engine (`analysis.py` stores these records as dicts). -/
structure AnalysisHour where
  hour : ℕ
  temp_2m : Option ℚ
  dewpoint : Option ℚ
  cloudbase_msl : Option ℚ
  cloudcover : Option ℚ
  precipitation : Option ℚ
  wind_10m : Option ℚ
  gusts : Option ℚ
  gust_factor : Option ℚ
  wind_700 : Option ℚ
  lapse_rate : Option ℚ
  bl_height : Option ℚ
  cape : Option ℚ
  cin : Option ℚ
  lifted_index : Option ℚ
  shortwave_radiation : Option ℚ
  wstar : Option ℚ

/-- The thermal-window summary (`window` dict of `_detect_thermal_window`).
`end_` models the Python key `"end"`. -/
structure ThermalWindow where
  start : Option ℕ
  end_ : Option ℕ
  peak_hour : Option ℕ
  duration_h : ℕ
  peak_lapse : Option ℚ
  peak_cape : Option ℚ

/-- The flyable-window summary returned by `compute_flyable_window`. -/
structure FlyableWindow where
  continuous_flyable_hours : ℕ
  flyable_start : Option ℕ
  flyable_end : Option ℕ

/-- The per-hour qualification test of `_detect_thermal_window`
(analysis.py lines 318-334): hour ≥ 9, W* present and ≥ 1.5, precipitation
≤ 0.5 or absent, cloud base ≥ 1000 m MSL or absent, cloud cover < 70% or
absent. -/
def thermalQualifies (p : AnalysisHour) : Bool :=
  decide (9 ≤ p.hour) &&
  (match p.wstar with | none => false | some w => decide (1.5 ≤ w)) &&
  (match p.precipitation with | none => true | some pr => decide (pr ≤ 0.5)) &&
  (match p.cloudbase_msl with | none => true | some b => decide (1000 ≤ b)) &&
  (match p.cloudcover with | none => true | some c => decide (c < 70))

/-- `_detect_thermal_window` (analysis.py lines 315-352).  The peak-hour scan
keeps the running best lapse rate and CAPE, with the sentinel `-999` standing
for missing values, exactly as in the source. -/
def _detect_thermal_window (profile : List AnalysisHour) : ThermalWindow :=
  let th := profile.filter thermalQualifies
  match th with
  | [] =>
    { start := none, end_ := none, peak_hour := none, duration_h := 0,
      peak_lapse := none, peak_cape := none }
  | first :: _ =>
    let peak := th.foldl
      (fun (acc : ℚ × ℚ × ℕ) p =>
        let lr_v := p.lapse_rate.getD (-999)
        let ca_v := p.cape.getD (-999)
        if lr_v > acc.1 ∨ (lr_v = acc.1 ∧ ca_v > acc.2.1) then (lr_v, ca_v, p.hour)
        else acc)
      (-999, -999, first.hour)
    { start := some first.hour,
      end_ := (th.getLast?).map (·.hour),
      peak_hour := some peak.2.2,
      duration_h := th.length,
      peak_lapse := if peak.1 > -999 then some peak.1 else none,
      peak_cape := if peak.2.1 > -999 then some peak.2.1 else none }

/-- The per-hour "ok" test of `compute_flyable_window` (analysis.py lines
366-376): no reason fires, where reasons are precipitation > 0.5, gusts > 12,
10 m wind > 8 (each skipped when absent). -/
def flyOk (p : AnalysisHour) : Bool :=
  (match p.precipitation with | none => true | some pr => decide (pr ≤ 0.5)) &&
  (match p.gusts with | none => true | some g => decide (g ≤ 12)) &&
  (match p.wind_10m with | none => true | some w => decide (w ≤ 8))

/-- `compute_flyable_window` (analysis.py lines 359-394).  The scan state is
`(max_start, max_len, cur_start, cur_len)`.  Python renders `flyable_start`
as `None` when `max_start` is falsy (i.e. `None` or `0`), and `flyable_end`
as `None` when `max_start` or `max_len` is falsy. -/
def compute_flyable_window (profile : List AnalysisHour) : FlyableWindow :=
  let entries := (profile.filter
      (fun p => decide (9 ≤ p.hour) && decide (p.hour ≤ 18))).map
    (fun p => (p.hour, flyOk p))
  let scan := entries.foldl
    (fun (acc : Option ℕ × ℕ × Option ℕ × ℕ) e =>
      if e.2 then
        let cs := match acc.2.2.1 with | none => some e.1 | some c => some c
        let cl := acc.2.2.2 + 1
        if acc.2.1 < cl then (cs, cl, cs, cl) else (acc.1, acc.2.1, cs, cl)
      else (acc.1, acc.2.1, none, 0))
    (none, 0, none, 0)
  { continuous_flyable_hours := scan.2.1,
    flyable_start :=
      match scan.1 with
      | some h => if h = 0 then none else some h
      | none => none,
    flyable_end :=
      match scan.1 with
      | some h => if h = 0 ∨ scan.2.1 = 0 then none else some (h + scan.2.1 - 1)
      | none => none }

/-- Mean of a list of rationals (`statistics.mean`; callers guard against
empty lists). -/
def qmean (l : List ℚ) : ℚ := l.sum / l.length

/-- `max` of a list (callers guard against empty lists). -/
def qmax : List ℚ → ℚ
  | [] => 0
  | x :: xs => xs.foldl max x

/-- `min` of a list (callers guard against empty lists). -/
def qmin : List ℚ → ℚ
  | [] => 0
  | x :: xs => xs.foldl min x

/-- The records of a profile inside the 09:00-18:00 analysis window
(`WINDOW_START_H`/`WINDOW_END_H`). -/
def windowHours (profile : List AnalysisHour) : List AnalysisHour :=
  profile.filter (fun p => decide (9 ≤ p.hour) && decide (p.hour ≤ 18))

/-- The non-`None` values of one field over the analysis window, in
chronological order (the collection loop of `compute_flags`,
analysis.py lines 528-553). -/
def collectWindow (profile : List AnalysisHour) (f : AnalysisHour → Option ℚ) :
    List ℚ :=
  (windowHours profile).filterMap f

/-- The `p13`-style lookup of `compute_flags`: scan the whole profile and keep
the field of the last record labelled 13:00 (analysis.py lines 582-585). -/
def at13Last (profile : List AnalysisHour) (f : AnalysisHour → Option ℚ) :
    Option ℚ :=
  profile.foldl (fun acc p => if p.hour = 13 then f p else acc) none

/-- The lifted-index lookup of `compute_flags` (analysis.py lines 611-612):
first record labelled 13:00 whose lifted index is present. -/
def li13First (profile : List AnalysisHour) : Option ℚ :=
  ((profile.filter (fun p => decide (p.hour = 13) && p.lifted_index.isSome)).head?).bind
    (·.lifted_index)

/-- `compute_flags` (analysis.py lines 517-641), returning the `(flags,
positives)` tag lists.  The human-readable messages attached to each tag are
display-only and are not modelled.  The lists `winds_10m` and `cins` are
collected but never read by the source, so they are omitted here. -/
def compute_flags (profile : List AnalysisHour) (peaks : ℚ)
    (flyable : FlyableWindow) (thermal_window : Option ThermalWindow) :
    List String × List String :=
  let tw_hours := match thermal_window with | some tw => tw.duration_h | none => 0
  let winds_700 := collectWindow profile (·.wind_700)
  let gusts_all := collectWindow profile (·.gusts)
  let bases := collectWindow profile (·.cloudbase_msl)
  let capes := collectWindow profile (·.cape)
  let lapse_rates := collectWindow profile (·.lapse_rate)
  let bl_heights := collectWindow profile (·.bl_height)
  let wstars := collectWindow profile (·.wstar)
  let sw_rads := collectWindow profile (·.shortwave_radiation)
  let gust_factors := collectWindow profile (·.gust_factor)
  let p13 := at13Last profile (·.precipitation)
  let cc13 := at13Last profile (·.cloudcover)
  let li13 := li13First profile
  let flags :=
    (if winds_700 ≠ [] ∧ 5 < qmean winds_700 then ["SUSTAINED_WIND_700"] else [])
    ++ (if gusts_all ≠ [] ∧ 10 < qmean gusts_all then ["GUSTS_HIGH"] else [])
    ++ (if gust_factors ≠ [] ∧ 7 < qmax gust_factors then ["GUST_FACTOR"] else [])
    ++ (if flyable.continuous_flyable_hours = 0 then ["NO_FLYABLE_WINDOW"] else [])
    ++ (if 0 < tw_hours ∧ tw_hours < 5 then ["SHORT_WINDOW"] else [])
    ++ (if bases ≠ [] ∧ qmin bases - peaks < 1000 then ["LOW_BASE"] else [])
    ++ (match p13 with
        | some x => if 0.5 < x then ["PRECIP_13"] else []
        | none => [])
    ++ (match cc13 with
        | some x => if 80 < x then ["OVERCAST"] else []
        | none => [])
    ++ (if lapse_rates ≠ [] ∧ qmean lapse_rates < 5.5 then ["STABLE"] else [])
    ++ (if capes ≠ [] ∧ 1500 < qmax capes then
          "HIGH_CAPE" ::
          (if 4 ≤ capes.length ∧
              qmean (capes.take 2) * 1.5 < qmean (capes.drop (capes.length - 2)) ∧
              800 < qmean (capes.drop (capes.length - 2)) then
            ["CAPE_RISING"]
          else [])
        else [])
    ++ (match li13 with
        | some v => if v < -4 then ["VERY_UNSTABLE"] else []
        | none => [])
  let positives :=
    (if lapse_rates ≠ [] ∧ 7 < qmax lapse_rates then ["STRONG_LAPSE"] else [])
    ++ (if capes ≠ [] ∧ 300 < qmax capes ∧ qmax capes < 1500 then ["GOOD_CAPE"] else [])
    ++ (if bl_heights ≠ [] ∧ 1500 < qmax bl_heights then ["DEEP_BL"] else [])
    ++ (if bases ≠ [] then
          (if 3500 < qmax bases then ["VERY_HIGH_BASE"]
           else if 1500 < qmax bases - peaks then ["HIGH_BASE"] else [])
        else [])
    ++ (if 7 ≤ tw_hours then ["LONG_WINDOW"] else [])
    ++ (match cc13 with
        | some x => if x < 30 then ["CLEAR_SKY"] else []
        | none => [])
    ++ (if wstars ≠ [] ∧ 1.5 ≤ qmax wstars then ["GOOD_WSTAR"] else [])
    ++ (if sw_rads ≠ [] ∧ 600 < qmax sw_rads then ["STRONG_SUN"] else [])
  (flags, positives)

/-- An `at_13_local` dict: parameter names to possibly-`None` values. -/
abbrev At13 : Type := List (String × Option ℚ)

/-- Result of `compute_model_agreement` (the `details` sub-dict is
display-only and not modelled). -/
structure Agreement where
  agreement_score : Option ℚ
  confidence : String

/-- The fallback scan `for k in (...): x = sources.get(k, {}).get("at_13_local", {}); if x: break`
(analysis.py lines 651-661): first non-empty dict along the chain, else empty. -/
def firstNonempty (sources : String → At13) : List String → At13
  | [] => []
  | k :: rest => if sources k = ([] : At13) then firstNonempty sources rest else sources k

/-- Python `d.get(param)`: absent key and present-but-`None` value both give
`None`. -/
def dictGet (d : At13) (param : String) : Option ℚ :=
  match List.lookup param d with
  | some v => v
  | none => none

/-- The tolerance table of `compute_model_agreement` (analysis.py lines
666-671), in insertion order. -/
def agreementTolerances : List (String × ℚ) :=
  [("temperature_2m", 2), ("windspeed_10m", 2), ("windgusts_10m", 3),
   ("cloudcover", 20), ("precipitation", 0.5), ("cape", 200),
   ("windspeed_700hPa", 2)]

/-- `compute_model_agreement` (analysis.py lines 648-698). -/
def compute_model_agreement (sources : String → At13) : Agreement :=
  let ecmwf := firstNonempty sources ["ecmwf_ifs025", "ecmwf_ifs04", "ecmwf_hres"]
  let icon := firstNonempty sources ["icon_d2", "icon_eu", "icon_global", "icon_seamless"]
  if ecmwf = ([] : At13) ∨ icon = ([] : At13) then
    { agreement_score := none, confidence := "UNKNOWN" }
  else
    let agrees := agreementTolerances.filterMap
      (fun pt =>
        match dictGet ecmwf pt.1, dictGet icon pt.1 with
        | some ve, some vi => some (decide (|ve - vi| ≤ pt.2))
        | _, _ => none)
    if agrees = [] then { agreement_score := none, confidence := "UNKNOWN" }
    else
      let score : ℚ := (agrees.count true : ℚ) / (agrees.length : ℚ)
      { agreement_score := some (pyRoundTo 2 score),
        confidence :=
          if 0.8 ≤ score then "HIGH" else if 0.5 ≤ score then "MEDIUM" else "LOW" }

/-- The two spread values rule 6 of `compute_status` reads from one ensemble
source (`windspeed_10m`/`cape` spreads at 13:00 local). -/
structure EnsSpread where
  wind_spread : Option ℚ
  cape_spread : Option ℚ

/-- The audit breakdown returned by `compute_status`
(analysis.py lines 834-843). -/
structure StatusBreakdown where
  tw_hours : ℕ
  base_score : ℤ
  n_critical : ℕ
  n_low_base : ℕ
  n_quality : ℕ
  n_danger : ℕ
  n_positive : ℕ
  n_very_high_base : ℕ

/-- The `(score, status, breakdown)` result of `compute_status`, together
with the flag list as mutated in place by the hard rules. -/
structure StatusResult where
  score : ℤ
  status : String
  flags : List String
  breakdown : StatusBreakdown

/-- `CRITICAL_TAGS` (analysis.py line 38). -/
def CRITICAL_TAGS : List String :=
  ["SUSTAINED_WIND_700", "GUSTS_HIGH", "PRECIP_13", "NO_FLYABLE_WINDOW"]

/-- `QUALITY_TAGS` (analysis.py line 39). -/
def QUALITY_TAGS : List String :=
  ["OVERCAST", "STABLE", "SHORT_WINDOW", "GUST_FACTOR"]

/-- `DANGER_TAGS` (analysis.py line 40). -/
def DANGER_TAGS : List String :=
  ["HIGH_CAPE", "VERY_UNSTABLE", "CAPE_RISING"]

/-- `sum(1 for t, _ in flags if t in tags)`. -/
def countTags (flags tags : List String) : ℕ :=
  (flags.filter (fun t => decide (t ∈ tags))).length

/-- Base score from thermal-window duration (analysis.py lines 742-751). -/
def baseScore (tw_hours : ℕ) : ℤ :=
  if tw_hours = 0 then -6
  else if tw_hours ≤ 2 then -2
  else if tw_hours ≤ 4 then 1
  else if tw_hours ≤ 6 then 4
  else 6

/-- Score after deductions and bonuses (analysis.py lines 753-768). -/
def scoreRaw (flags positives : List String) (tw_hours : ℕ) : ℤ :=
  baseScore tw_hours
    - (countTags flags CRITICAL_TAGS : ℤ) * 3
    - (countTags flags ["LOW_BASE"] : ℤ) * 2
    - (countTags flags QUALITY_TAGS : ℤ) * 1
    - (countTags flags DANGER_TAGS : ℤ) * 1
    + ((positives.length : ℤ) - (countTags positives ["VERY_HIGH_BASE"] : ℤ)) * 1
    + (countTags positives ["VERY_HIGH_BASE"] : ℤ) * 2

/-- Status from score bands (analysis.py lines 770-780). -/
def statusFromScore (score : ℤ) : String :=
  if score ≤ -5 then "NO-GO"
  else if score ≤ -2 then "UNLIKELY"
  else if score ≤ 1 then "MAYBE"
  else if score ≤ 4 then "GO"
  else "STRONG"

/-- Hard rules 1 and 2 (analysis.py lines 784-789). -/
def applyRule12 (n_crit n_base : ℕ) (status : String) : String :=
  if 2 ≤ n_crit ∨ (1 ≤ n_crit ∧ 1 ≤ n_base) then "NO-GO"
  else if 1 ≤ n_crit ∧ (status = "GO" ∨ status = "STRONG") then "MAYBE"
  else status

/-- The status reached after scoring and hard rules 1-2, before rule 3. -/
def statusAfterRule12 (flags positives : List String) (tw_hours : ℕ) : String :=
  applyRule12 (countTags flags CRITICAL_TAGS) (countTags flags ["LOW_BASE"])
    (statusFromScore (scoreRaw flags positives tw_hours))

/-- Hard rule 3 (analysis.py lines 791-796), acting on `(status, flags)`. -/
def applyRule3 (cloudbase_min : Option ℚ) (st : String × List String) :
    String × List String :=
  match cloudbase_min with
  | some cb =>
    if cb < 2000 then
      (if st.1 = "GO" ∨ st.1 = "STRONG" then ("MAYBE", st.2 ++ ["LOW_BASE_HARD"])
       else st)
    else st
  | none => st

/-- Hard rule 4 (analysis.py lines 798-810), acting on `(score, status,
flags)`; the per-model dict is `None` or a key-to-status map. -/
def applyRule4 (per_model : Option (List (String × String))) (score : ℤ)
    (st : String × List String) : ℤ × String × List String :=
  match per_model with
  | none => (score, st)
  | some pm =>
    if pm = [] then (score, st)
    else
      let bad := pm.filter (fun kv => decide (kv.2 = "NO-GO" ∨ kv.2 = "UNLIKELY"))
      if bad ≠ [] ∧ (st.1 = "GO" ∨ st.1 = "STRONG") then
        (score - bad.length,
         (if 2 ≤ bad.length then "UNLIKELY" else "MAYBE"),
         st.2 ++ ["MODEL_DISAGREE"])
      else (score, st)

/-- Hard rule 5 (analysis.py lines 812-817). -/
def applyRule5 (conf : String) (st : String × List String) :
    String × List String :=
  if conf = "LOW" ∧ (st.1 = "GO" ∨ st.1 = "STRONG") then
    ("MAYBE", st.2 ++ ["LOW_CONFIDENCE"])
  else st

/-- One iteration of hard rule 6 (analysis.py lines 820-828): the wind-spread
check, then the CAPE-spread check on the updated status. -/
def applyRule6One (d : EnsSpread) (st : String × List String) :
    String × List String :=
  let st1 :=
    match d.wind_spread with
    | some w =>
      if 5 < w ∧ (st.1 = "GO" ∨ st.1 = "STRONG") then
        ("MAYBE", st.2 ++ ["ENS_WIND_SPREAD"])
      else st
    | none => st
  match d.cape_spread with
  | some c =>
    if 1000 < c ∧ (st1.1 = "GO" ∨ st1.1 = "STRONG") then
      ("MAYBE", st1.2 ++ ["ENS_CAPE_SPREAD"])
    else st1
  | none => st1

/-- Hard rule 6 over all ensemble sources, in dict order. -/
def applyRule6 (ens : List (String × EnsSpread)) (st : String × List String) :
    String × List String :=
  ens.foldl (fun acc e => applyRule6One e.2 acc) st

/-- `compute_status` (analysis.py lines 727-845). -/
def compute_status (flags positives : List String) (agreement : Agreement)
    (ensemble_unc : List (String × EnsSpread)) (thermal_window : ThermalWindow)
    (cloudbase_min : Option ℚ)
    (per_model_assessments : Option (List (String × String))) : StatusResult :=
  let tw_hours := thermal_window.duration_h
  let n_crit := countTags flags CRITICAL_TAGS
  let n_qual := countTags flags QUALITY_TAGS
  let n_vhb := countTags positives ["VERY_HIGH_BASE"]
  let score0 := scoreRaw flags positives tw_hours
  let st3 := applyRule3 cloudbase_min (statusAfterRule12 flags positives tw_hours, flags)
  let r4 := applyRule4 per_model_assessments score0 st3
  let st5 := applyRule5 agreement.confidence r4.2
  let st6 := applyRule6 ensemble_unc st5
  { score := r4.1,
    status :=
      if n_crit = 0 ∧ n_qual = 0 ∧ positives = [] ∧ tw_hours = 0 then "NO DATA"
      else st6.1,
    flags := st6.2,
    breakdown :=
      { tw_hours := tw_hours,
        base_score := baseScore tw_hours,
        n_critical := n_crit,
        n_low_base := countTags flags ["LOW_BASE"],
        n_quality := n_qual,
        n_danger := countTags flags DANGER_TAGS,
        n_positive := positives.length - n_vhb,
        n_very_high_base := n_vhb } }

/-- One per-hour record of a per-model profile as built by
`build_per_model_profiles` (analysis.py lines 447-465), restricted to the
fields the averaged-profile merge reads. -/
structure PMHour where
  temp_2m : Option ℚ := none
  dewpoint : Option ℚ := none
  cloudcover : Option ℚ := none
  cloudcover_low : Option ℚ := none
  cloudcover_mid : Option ℚ := none
  cloudcover_high : Option ℚ := none
  precipitation : Option ℚ := none
  wind_10m : Option ℚ := none
  gusts : Option ℚ := none
  wind_850 : Option ℚ := none
  wind_700 : Option ℚ := none
  rh_850 : Option ℚ := none
  rh_700 : Option ℚ := none
  lapse_rate : Option ℚ := none
  cape : Option ℚ := none
  shortwave_radiation : Option ℚ := none
  bl_height : Option ℚ := none
  lifted_index : Option ℚ := none
  cin : Option ℚ := none
  updraft : Option ℚ := none

/-- The empty dict `{}` standing in for a missing model at some hour. -/
def emptyPMHour : PMHour := {}

/-- One per-hour record of the merged (averaged) profile, as appended by
`build_averaged_profile` (analysis.py lines 285-302).  `_src` is the
primary-source label, `_src_overrides` the per-field override map. -/
structure MergedHour where
  hour : ℕ
  temp_2m : Option ℚ
  dewpoint : Option ℚ
  cloudbase_msl : Option ℤ
  cloudcover : Option ℚ
  cloudcover_low : Option ℚ
  cloudcover_mid : Option ℚ
  cloudcover_high : Option ℚ
  precipitation : Option ℚ
  wind_10m : Option ℚ
  gusts : Option ℚ
  gust_factor : Option ℚ
  wind_850 : Option ℚ
  wind_700 : Option ℚ
  rh_850 : Option ℚ
  rh_700 : Option ℚ
  lapse_rate : Option ℚ
  bl_height : Option ℚ
  cape : Option ℚ
  cin : Option ℚ
  lifted_index : Option ℚ
  shortwave_radiation : Option ℚ
  updraft : Option ℚ
  wstar : Option ℝ
  _src : Option String
  _src_overrides : Option (List (String × String))

/-- The loop body of `build_averaged_profile` (analysis.py lines 232-302)
building one merged hour from the ICON, ECMWF and GFS records (`{}` when a
model is absent), the location elevation and the chosen family keys. -/
noncomputable def build_averaged_hour (iv ev gv : PMHour) (elev : ℚ)
    (icon_key ecmwf_key : Option String) (hour : ℕ) : MergedHour :=
  let t2m := _avg iv.temp_2m ev.temp_2m 2
  let td := _avg iv.dewpoint ev.dewpoint 2
  let cloud := _avg iv.cloudcover ev.cloudcover 0
  let cl_lo := _avg iv.cloudcover_low ev.cloudcover_low 0
  let cl_mi := _avg iv.cloudcover_mid ev.cloudcover_mid 0
  let cl_hi := _avg iv.cloudcover_high ev.cloudcover_high 0
  let prec := _avg iv.precipitation ev.precipitation 2
  let ws10 := _avg iv.wind_10m ev.wind_10m 2
  let gust := _avg iv.gusts ev.gusts 2
  let ws850 := _avg iv.wind_850 ev.wind_850 2
  let ws700 := _avg iv.wind_700 ev.wind_700 2
  let rh850 := _avg iv.rh_850 ev.rh_850 0
  let rh700 := _avg iv.rh_700 ev.rh_700 0
  let lr := _avg iv.lapse_rate ev.lapse_rate 1
  let cape_v0 := _avg iv.cape ev.cape 0
  let sw0 := _avg iv.shortwave_radiation ev.shortwave_radiation 0
  let bl := gv.bl_height
  let li := gv.lifted_index
  let cin := gv.cin
  let sw := match sw0 with | none => gv.shortwave_radiation | some v => some v
  let cape_v := match cape_v0 with | none => gv.cape | some v => some v
  let updraft_v := iv.updraft
  let base_msl := cloudbaseVal t2m td elev
  let ws_v := estimate_wstar bl sw t2m
  let gust_factor :=
    match gust, ws10 with
    | some g, some w => some (pyRoundTo 1 (g - w))
    | _, _ => none
  let src_parts := icon_key.toList ++ ecmwf_key.toList
  let src_label := if src_parts.length = 2 then some "avg" else src_parts.head?
  { hour := hour, temp_2m := t2m, dewpoint := td,
    cloudbase_msl := base_msl,
    cloudcover := cloud,
    cloudcover_low := cl_lo, cloudcover_mid := cl_mi, cloudcover_high := cl_hi,
    precipitation := prec,
    wind_10m := ws10, gusts := gust, gust_factor := gust_factor,
    wind_850 := ws850, wind_700 := ws700,
    rh_850 := rh850, rh_700 := rh700,
    lapse_rate := lr,
    bl_height := bl, cape := cape_v, cin := cin, lifted_index := li,
    shortwave_radiation := sw,
    updraft := match updraft_v with | some u => some (pyRoundTo 2 u) | none => none,
    wstar := ws_v,
    _src := src_label,
    _src_overrides := none }

/-- `profile[i] if profile and i < len(profile) else {}`. -/
def getHourRec (prof : Option (List PMHour)) (i : ℕ) : PMHour :=
  match prof with
  | some l => l.getD i emptyPMHour
  | none => emptyPMHour

/-- The merged-profile list of `build_averaged_profile` (analysis.py lines
230-302): one merged record per analysis hour 08:00-18:00. -/
noncomputable def build_averaged_profile
    (icon_prof ecmwf_prof gfs_prof : Option (List PMHour)) (elev : ℚ)
    (icon_key ecmwf_key : Option String) : List MergedHour :=
  (List.range 11).map (fun i =>
    build_averaged_hour (getHourRec icon_prof i) (getHourRec ecmwf_prof i)
      (getHourRec gfs_prof i) elev icon_key ecmwf_key (8 + i))

/-- Following the wording of the spec (§3 Hourly Profile invariant): the
merged lapse rate "recomputed from the merged values", i.e. `lapse_rate`
applied to the averaged 850 hPa and 700 hPa temperatures.  This definition
exists only to be compared with the behaviour of the source, which instead
averages the per-model precomputed lapse rates. -/
def lapse_rate_from_merged_temps_spec (i850 i700 e850 e700 : Option ℚ) :
    Option ℚ :=
  lapse_rate (_avg i850 e850 2) (_avg i700 e700 2)

/-- An hour of the end-to-end regression fixture of the spec (§8.9): W* as
given, cloud base 2500 m MSL, precipitation 0, total cloud cover 40%, all
other fields absent. -/
def fixtureHour (h : ℕ) (w : ℚ) : AnalysisHour :=
  { hour := h, temp_2m := none, dewpoint := none,
    cloudbase_msl := some 2500, cloudcover := some 40,
    precipitation := some 0, wind_10m := none, gusts := none,
    gust_factor := none, wind_700 := none, lapse_rate := none,
    bl_height := none, cape := none, cin := none, lifted_index := none,
    shortwave_radiation := none, wstar := some w }

/-- The fixture profile over 08:00-18:00 with
W* = [0, 0, 1.6, 1.8, 1.9, 1.7, 1.4, 0, 0, 0, 0]. -/
def fixtureProfile : List AnalysisHour :=
  [fixtureHour 8 0, fixtureHour 9 0, fixtureHour 10 1.6, fixtureHour 11 1.8,
   fixtureHour 12 1.9, fixtureHour 13 1.7, fixtureHour 14 1.4,
   fixtureHour 15 0, fixtureHour 16 0, fixtureHour 17 0, fixtureHour 18 0]

/-- Thermal window detected on the fixture profile. -/
def fixtureThermal : ThermalWindow := _detect_thermal_window fixtureProfile

/-- Flyable window detected on the fixture profile. -/
def fixtureFlyable : FlyableWindow := compute_flyable_window fixtureProfile

/-- Flags and positives computed on the fixture profile over 1800 m peaks. -/
def fixtureFlags : List String × List String :=
  compute_flags fixtureProfile 1800 fixtureFlyable (some fixtureThermal)

/-- Status computed on the fixture: neutral agreement (UNKNOWN), no ensemble
data, minimum window cloud base 2500 m, no per-model assessments. -/
def fixtureStatus : StatusResult :=
  compute_status fixtureFlags.1 fixtureFlags.2
    { agreement_score := none, confidence := "UNKNOWN" } [] fixtureThermal
    (some 2500) none


lemma fixtureThermal_val :
    fixtureThermal =
      { start := some 10, end_ := some 13, peak_hour := some 10,
        duration_h := 4, peak_lapse := none, peak_cape := none } := by
  norm_num [fixtureThermal, _detect_thermal_window, fixtureProfile, fixtureHour,
    thermalQualifies, List.filter, List.getLast?, List.foldl]

lemma fixtureFlags_val :
    fixtureFlags = (["SHORT_WINDOW", "LOW_BASE"], ["GOOD_WSTAR"]) := by
  norm_num [fixtureFlags, compute_flags, fixtureProfile, fixtureHour,
    collectWindow, windowHours, at13Last, li13First, qmean, qmin, qmax,
    List.filter, List.filterMap, List.foldl, fixtureFlyable,
    compute_flyable_window, flyOk, List.map, fixtureThermal,
    _detect_thermal_window, thermalQualifies, List.getLast?, List.sum,
    ne_eq, List.cons_ne_nil, Prod.ext_iff]

lemma fixtureStatus_val :
    fixtureStatus.score = -1 ∧ fixtureStatus.status = "MAYBE" ∧
    fixtureStatus.flags = ["SHORT_WINDOW", "LOW_BASE"] ∧
    fixtureStatus.breakdown.base_score = 1 := by
  have h : fixtureStatus =
      compute_status (["SHORT_WINDOW", "LOW_BASE"], ["GOOD_WSTAR"]).1
        (["SHORT_WINDOW", "LOW_BASE"], ["GOOD_WSTAR"]).2
        { agreement_score := none, confidence := "UNKNOWN" } []
        { start := some 10, end_ := some 13, peak_hour := some 10,
          duration_h := 4, peak_lapse := none, peak_cape := none }
        (some 2500) none := by
    unfold fixtureStatus
    rw [fixtureFlags_val, fixtureThermal_val]
  rw [h]
  decide

/-- C1: according to the spec, the fixture (peaks 1800 m, W* profile
`[0, 0, 1.6, 1.8, 1.9, 1.7, 1.4, 0, 0, 0, 0]` over 08:00-18:00, base 2500 m,
no precipitation, 40% cloud) should yield a 5-hour thermal window spanning
10:00-14:00, base score 4, only a LOW_BASE flag, no positives, final score 2
and status GO.  This is false on the code: 14:00 has W* 1.4 < 1.5, so only
4 hours qualify, and the SHORT_WINDOW flag and GOOD_WSTAR positive fire. -/
theorem C1_fixture_counterexample :
    ¬ (fixtureThermal.duration_h = 5 ∧ fixtureThermal.start = some 10 ∧
       fixtureThermal.end_ = some 14 ∧ fixtureStatus.breakdown.base_score = 4 ∧
       fixtureFlags.1 = ["LOW_BASE"] ∧ fixtureFlags.2 = [] ∧
       fixtureStatus.score = 2 ∧ fixtureStatus.status = "GO") := by
  rw [fixtureThermal_val]
  intro h
  exact absurd h.1 (by decide)

/-- C1 (amended): on the fixture, the thermal window has 4 qualifying hours
spanning 10:00-13:00 (14:00 has W* 1.4, below the 1.5 threshold), giving
base score 1; the flag engine emits SHORT_WINDOW and LOW_BASE and the
positive GOOD_WSTAR; the status engine returns final score -1 and status
MAYBE, appending no further flags. -/
theorem C1_fixture_amended :
    fixtureThermal.duration_h = 4 ∧ fixtureThermal.start = some 10 ∧
    fixtureThermal.end_ = some 13 ∧ fixtureStatus.breakdown.base_score = 1 ∧
    fixtureFlags.1 = ["SHORT_WINDOW", "LOW_BASE"] ∧
    fixtureFlags.2 = ["GOOD_WSTAR"] ∧
    fixtureStatus.score = -1 ∧ fixtureStatus.status = "MAYBE" ∧
    fixtureStatus.flags = ["SHORT_WINDOW", "LOW_BASE"] := by
  rw [fixtureThermal_val, fixtureFlags_val]
  refine ⟨rfl, rfl, rfl, fixtureStatus_val.2.2.2, rfl, rfl,
    fixtureStatus_val.1, fixtureStatus_val.2.1, fixtureStatus_val.2.2.1⟩

lemma estimate_cloudbase_msl_some_elev (t d : Option ℚ) (e : ℚ) :
    estimate_cloudbase_msl t d (some e) = .ok (cloudbaseVal t d e) := by
  rcases t with _ | tv <;> rcases d with _ | dv <;> rfl

lemma applyRule3_of_not_gs (cb : Option ℚ) (st : String × List String)
    (h1 : st.1 ≠ "GO") (h2 : st.1 ≠ "STRONG") : applyRule3 cb st = st := by
  unfold applyRule3
  cases cb with
  | none => rfl
  | some c => simp [h1, h2]

lemma applyRule4_of_not_gs (pm : Option (List (String × String))) (sc : ℤ)
    (st : String × List String) (h1 : st.1 ≠ "GO") (h2 : st.1 ≠ "STRONG") :
    applyRule4 pm sc st = (sc, st) := by
  unfold applyRule4
  cases pm with
  | none => rfl
  | some l => simp [h1, h2]

lemma applyRule5_of_not_gs (conf : String) (st : String × List String)
    (h1 : st.1 ≠ "GO") (h2 : st.1 ≠ "STRONG") : applyRule5 conf st = st := by
  unfold applyRule5
  simp [h1, h2]

lemma applyRule5_of_ne_low (conf : String) (st : String × List String)
    (h : conf ≠ "LOW") : applyRule5 conf st = st := by
  unfold applyRule5
  simp [h]

lemma applyRule6One_of_not_gs (d : EnsSpread) (st : String × List String)
    (h1 : st.1 ≠ "GO") (h2 : st.1 ≠ "STRONG") : applyRule6One d st = st := by
  obtain ⟨w, c⟩ := d
  cases w <;> cases c <;> simp [applyRule6One, h1, h2]

lemma applyRule6_of_not_gs (ens : List (String × EnsSpread))
    (st : String × List String) (h1 : st.1 ≠ "GO") (h2 : st.1 ≠ "STRONG") :
    applyRule6 ens st = st := by
  induction ens with
  | nil => rfl
  | cons e rest ih =>
    unfold applyRule6 at ih ⊢
    rw [List.foldl_cons, applyRule6One_of_not_gs e.2 st h1 h2, ih]

lemma compute_status_of_not_gs (flags positives : List String)
    (agreement : Agreement) (ens : List (String × EnsSpread))
    (tw : ThermalWindow) (cb : Option ℚ) (pm : Option (List (String × String)))
    (h1 : statusAfterRule12 flags positives tw.duration_h ≠ "GO")
    (h2 : statusAfterRule12 flags positives tw.duration_h ≠ "STRONG") :
    (compute_status flags positives agreement ens tw cb pm).status =
      (if countTags flags CRITICAL_TAGS = 0 ∧ countTags flags QUALITY_TAGS = 0 ∧
          positives = [] ∧ tw.duration_h = 0 then "NO DATA"
       else statusAfterRule12 flags positives tw.duration_h) ∧
    (compute_status flags positives agreement ens tw cb pm).flags = flags ∧
    (compute_status flags positives agreement ens tw cb pm).score =
      scoreRaw flags positives tw.duration_h := by
  simp only [compute_status]
  rw [applyRule3_of_not_gs cb _ h1 h2, applyRule4_of_not_gs pm _ _ h1 h2,
    applyRule5_of_not_gs _ _ h1 h2, applyRule6_of_not_gs ens _ h1 h2]
  exact ⟨rfl, rfl, rfl⟩

lemma statusFromScore_of_le (s : ℤ) (h : s ≤ -5) :
    statusFromScore s = "NO-GO" := by
  unfold statusFromScore
  rw [if_pos h]

lemma statusAfterRule12_of_two_crit (flags positives : List String)
    (tw_hours : ℕ) (h : 2 ≤ countTags flags CRITICAL_TAGS) :
    statusAfterRule12 flags positives tw_hours = "NO-GO" := by
  unfold statusAfterRule12 applyRule12
  rw [if_pos (Or.inl h)]

lemma statusAfterRule12_of_no_data (flags positives : List String)
    (h1 : countTags flags CRITICAL_TAGS = 0)
    (h2 : countTags flags QUALITY_TAGS = 0) (h3 : positives = []) :
    statusAfterRule12 flags positives 0 = "NO-GO" := by
  have hs : scoreRaw flags positives 0 ≤ -5 := by
    subst h3
    unfold scoreRaw baseScore
    rw [h1, h2]
    simp only [List.filter_nil, List.length_nil, reduceIte, countTags]
    omega
  unfold statusAfterRule12 applyRule12
  rw [statusFromScore_of_le _ hs, h1]
  norm_num

/-- C2: whenever the input flag list carries at least two critical-tagged
flags, `compute_status` returns final status NO-GO, whatever the positives,
thermal window, minimum cloud base, agreement, ensemble and per-model
inputs: hard rule 1 fires and no later rule changes a NO-GO status. -/
theorem C2_two_critical_flags_force_nogo (flags positives : List String)
    (agreement : Agreement) (ens : List (String × EnsSpread))
    (tw : ThermalWindow) (cb : Option ℚ) (pm : Option (List (String × String)))
    (h : 2 ≤ countTags flags CRITICAL_TAGS) :
    (compute_status flags positives agreement ens tw cb pm).status = "NO-GO" := by
  have h12 := statusAfterRule12_of_two_crit flags positives tw.duration_h h
  have hc := compute_status_of_not_gs flags positives agreement ens tw cb pm
    (by rw [h12]; decide) (by rw [h12]; decide)
  rw [hc.1, h12, if_neg]
  intro hcond
  rw [hcond.1] at h
  omega

/-- Witness for C2 at a concrete input: two critical flags, a long thermal
window and many positives still yield NO-GO. -/
theorem C2_witness :
    (compute_status ["GUSTS_HIGH", "PRECIP_13"] ["GOOD_WSTAR", "STRONG_SUN"]
      { agreement_score := none, confidence := "UNKNOWN" } []
      { start := some 9, end_ := some 18, peak_hour := some 12,
        duration_h := 10, peak_lapse := none, peak_cape := none }
      (some 3000) none).status = "NO-GO" :=
  C2_two_critical_flags_force_nogo _ _ _ _ _ _ _ (by decide)

lemma applyRule3_fires (c : ℚ) (hc : c < 2000) (s : String) (fl : List String)
    (hgs : s = "GO" ∨ s = "STRONG") :
    applyRule3 (some c) (s, fl) = ("MAYBE", fl ++ ["LOW_BASE_HARD"]) := by
  simp only [applyRule3]
  rw [if_pos hc, if_pos hgs]

lemma rules456_on_maybe (pm : Option (List (String × String))) (sc : ℤ)
    (conf : String) (ens : List (String × EnsSpread)) (fl : List String) :
    applyRule6 ens (applyRule5 conf (applyRule4 pm sc ("MAYBE", fl)).2) =
      ("MAYBE", fl) := by
  have hMG : ("MAYBE" : String) ≠ "GO" := by decide
  have hMS : ("MAYBE" : String) ≠ "STRONG" := by decide
  rw [applyRule4_of_not_gs pm sc ("MAYBE", fl) hMG hMS]
  show applyRule6 ens (applyRule5 conf ("MAYBE", fl)) = ("MAYBE", fl)
  rw [applyRule5_of_not_gs conf ("MAYBE", fl) hMG hMS,
    applyRule6_of_not_gs ens ("MAYBE", fl) hMG hMS]

lemma rule4_score_on_maybe (pm : Option (List (String × String))) (sc : ℤ)
    (fl : List String) : (applyRule4 pm sc ("MAYBE", fl)).1 = sc := by
  have hMG : ("MAYBE" : String) ≠ "GO" := by decide
  have hMS : ("MAYBE" : String) ≠ "STRONG" := by decide
  rw [applyRule4_of_not_gs pm sc ("MAYBE", fl) hMG hMS]

/-- C3: when the minimum window cloud base is strictly below 2000 m MSL, the
final status is never GO and never STRONG; moreover, if the status reached
after scoring and hard rules 1-2 is GO or STRONG, rule 3 forces the final
status to MAYBE and appends a LOW_BASE_HARD flag, however large the base
score and bonuses were. -/
theorem C3_low_base_hard_ceiling (flags positives : List String)
    (agreement : Agreement) (ens : List (String × EnsSpread))
    (tw : ThermalWindow) (pm : Option (List (String × String)))
    (c : ℚ) (hc : c < 2000) :
    ((compute_status flags positives agreement ens tw (some c) pm).status ≠ "GO" ∧
     (compute_status flags positives agreement ens tw (some c) pm).status ≠ "STRONG") ∧
    ((statusAfterRule12 flags positives tw.duration_h = "GO" ∨
      statusAfterRule12 flags positives tw.duration_h = "STRONG") →
      (compute_status flags positives agreement ens tw (some c) pm).status = "MAYBE" ∧
      "LOW_BASE_HARD" ∈ (compute_status flags positives agreement ens tw (some c) pm).flags) := by
  by_cases hgs : statusAfterRule12 flags positives tw.duration_h = "GO" ∨
      statusAfterRule12 flags positives tw.duration_h = "STRONG"
  · have hcond : ¬(countTags flags CRITICAL_TAGS = 0 ∧
        countTags flags QUALITY_TAGS = 0 ∧ positives = [] ∧ tw.duration_h = 0) := by
      intro hcond
      rw [hcond.2.2.2] at hgs
      rw [statusAfterRule12_of_no_data flags positives hcond.1 hcond.2.1
        hcond.2.2.1] at hgs
      rcases hgs with hgs | hgs <;> exact absurd hgs (by decide)
    have key : (compute_status flags positives agreement ens tw (some c) pm).status
          = "MAYBE" ∧
        (compute_status flags positives agreement ens tw (some c) pm).flags
          = flags ++ ["LOW_BASE_HARD"] := by
      simp only [compute_status]
      rw [applyRule3_fires c hc _ _ hgs, rules456_on_maybe]
      exact ⟨by rw [if_neg hcond], rfl⟩
    refine ⟨⟨by rw [key.1]; decide, by rw [key.1]; decide⟩, fun _ => ⟨key.1, ?_⟩⟩
    rw [key.2]
    simp
  · push_neg at hgs
    have hc2 := compute_status_of_not_gs flags positives agreement ens tw
      (some c) pm hgs.1 hgs.2
    constructor
    · rw [hc2.1]
      constructor
      · split
        · decide
        · exact hgs.1
      · split
        · decide
        · exact hgs.2
    · intro hcontra
      exact absurd hcontra (by push_neg; exact hgs)

/-- Witness for C3 at a concrete input: no flags, three positives and a
7-hour thermal window, with a minimum window cloud base of 1900 m. -/
theorem C3_witness :
    ((compute_status [] ["STRONG_LAPSE", "DEEP_BL", "GOOD_WSTAR"]
        { agreement_score := none, confidence := "UNKNOWN" } []
        { start := some 9, end_ := some 18, peak_hour := some 12,
          duration_h := 7, peak_lapse := none, peak_cape := none }
        (some 1900) none).status ≠ "GO" ∧
     (compute_status [] ["STRONG_LAPSE", "DEEP_BL", "GOOD_WSTAR"]
        { agreement_score := none, confidence := "UNKNOWN" } []
        { start := some 9, end_ := some 18, peak_hour := some 12,
          duration_h := 7, peak_lapse := none, peak_cape := none }
        (some 1900) none).status ≠ "STRONG") ∧
    ((statusAfterRule12 [] ["STRONG_LAPSE", "DEEP_BL", "GOOD_WSTAR"]
        ({ start := some 9, end_ := some 18, peak_hour := some 12,
           duration_h := 7, peak_lapse := none,
           peak_cape := none } : ThermalWindow).duration_h = "GO" ∨
      statusAfterRule12 [] ["STRONG_LAPSE", "DEEP_BL", "GOOD_WSTAR"]
        ({ start := some 9, end_ := some 18, peak_hour := some 12,
           duration_h := 7, peak_lapse := none,
           peak_cape := none } : ThermalWindow).duration_h = "STRONG") →
      (compute_status [] ["STRONG_LAPSE", "DEEP_BL", "GOOD_WSTAR"]
        { agreement_score := none, confidence := "UNKNOWN" } []
        { start := some 9, end_ := some 18, peak_hour := some 12,
          duration_h := 7, peak_lapse := none, peak_cape := none }
        (some 1900) none).status = "MAYBE" ∧
      "LOW_BASE_HARD" ∈ (compute_status [] ["STRONG_LAPSE", "DEEP_BL", "GOOD_WSTAR"]
        { agreement_score := none, confidence := "UNKNOWN" } []
        { start := some 9, end_ := some 18, peak_hour := some 12,
          duration_h := 7, peak_lapse := none, peak_cape := none }
        (some 1900) none).flags) :=
  C3_low_base_hard_ceiling [] ["STRONG_LAPSE", "DEEP_BL", "GOOD_WSTAR"]
    { agreement_score := none, confidence := "UNKNOWN" } []
    { start := some 9, end_ := some 18, peak_hour := some 12,
      duration_h := 7, peak_lapse := none, peak_cape := none }
    none 1900 (by norm_num)

lemma statusFromScore_ne_nd (s : ℤ) : statusFromScore s ≠ "NO DATA" := by
  unfold statusFromScore
  split_ifs <;> decide

lemma statusAfterRule12_ne_nd (flags positives : List String) (tw_hours : ℕ) :
    statusAfterRule12 flags positives tw_hours ≠ "NO DATA" := by
  unfold statusAfterRule12 applyRule12
  split_ifs <;> first | decide | exact statusFromScore_ne_nd _

lemma applyRule3_fst_ne_nd (cb : Option ℚ) (st : String × List String)
    (h : st.1 ≠ "NO DATA") : (applyRule3 cb st).1 ≠ "NO DATA" := by
  simp only [applyRule3]
  split <;> try exact h
  split_ifs <;> first | exact h | simp

lemma applyRule4_snd_fst_ne_nd (pm : Option (List (String × String))) (sc : ℤ)
    (st : String × List String) (h : st.1 ≠ "NO DATA") :
    (applyRule4 pm sc st).2.1 ≠ "NO DATA" := by
  simp only [applyRule4]
  split <;> try exact h
  split_ifs <;> first | exact h | simp

lemma applyRule5_fst_ne_nd (conf : String) (st : String × List String)
    (h : st.1 ≠ "NO DATA") : (applyRule5 conf st).1 ≠ "NO DATA" := by
  simp only [applyRule5]
  split_ifs <;> first | exact h | simp

lemma applyRule6One_fst_ne_nd (d : EnsSpread) (st : String × List String)
    (h : st.1 ≠ "NO DATA") : (applyRule6One d st).1 ≠ "NO DATA" := by
  obtain ⟨w, c⟩ := d
  simp only [applyRule6One]
  cases w <;> cases c <;> dsimp only <;> (try split_ifs) <;> first | exact h | simp

lemma applyRule6_fst_ne_nd (ens : List (String × EnsSpread))
    (st : String × List String) (h : st.1 ≠ "NO DATA") :
    (applyRule6 ens st).1 ≠ "NO DATA" := by
  induction ens generalizing st with
  | nil => exact h
  | cons e rest ih =>
    unfold applyRule6 at ih ⊢
    rw [List.foldl_cons]
    exact ih _ (applyRule6One_fst_ne_nd e.2 st h)

/-- C4: `compute_status` returns status NO DATA exactly when the critical
count, quality count, positives list and thermal-window duration are all
zero; any of these being nonzero forces a different status. -/
theorem C4_no_data_exclusivity (flags positives : List String)
    (agreement : Agreement) (ens : List (String × EnsSpread))
    (tw : ThermalWindow) (cb : Option ℚ)
    (pm : Option (List (String × String))) :
    (compute_status flags positives agreement ens tw cb pm).status = "NO DATA" ↔
    (countTags flags CRITICAL_TAGS = 0 ∧ countTags flags QUALITY_TAGS = 0 ∧
     positives = [] ∧ tw.duration_h = 0) := by
  constructor
  · intro h
    by_contra hcond
    apply absurd h
    simp only [compute_status]
    rw [if_neg hcond]
    exact applyRule6_fst_ne_nd ens _ (applyRule5_fst_ne_nd _ _
      (applyRule4_snd_fst_ne_nd pm _ _ (applyRule3_fst_ne_nd cb _
        (statusAfterRule12_ne_nd flags positives tw.duration_h))))
  · intro hcond
    simp only [compute_status]
    rw [if_pos hcond]

/-- C6: the claim states `estimate_cloudbase_msl` is total and, when
temperature and dewpoint are present, returns a value even if elevation
alone is `None`.  This is false on the code: the body only guards the first
two arguments, and `125.0 * (temp - dewpoint) + None` raises `TypeError`
(modelled as `Except.error`), as at temperature 5, dewpoint 0, elevation
`None`. -/
theorem C6_elev_none_counterexample :
    estimate_cloudbase_msl (some 5) (some 0) none = .error () := rfl

/-- C6 (amended): `estimate_cloudbase_msl` returns `None` exactly when
temperature or dewpoint is `None` (elevation is then never inspected); with
all three present it returns the rounded `125 * (temp - dewpoint) + elev`;
but with temperature and dewpoint present and elevation `None` it raises
`TypeError` instead of returning a value, so it is not total in the third
argument. -/
theorem C6_cloudbase_characterisation (t d e : Option ℚ) :
    estimate_cloudbase_msl t d e =
      match t, d, e with
      | none, _, _ => .ok none
      | some _, none, _ => .ok none
      | some tv, some dv, some ev => .ok (some (pyRound0 (125 * (tv - dv) + ev)))
      | some _, some _, none => .error () := by
  rcases t with _ | tv <;> rcases d with _ | dv <;> rcases e with _ | ev <;> rfl

lemma mem_of_mem_append_single {t a : String} {l : List String}
    (h : t ∈ l ++ [a]) : t ∈ l ∨ t = a := by
  rcases List.mem_append.mp h with h | h
  · exact Or.inl h
  · exact Or.inr (List.mem_singleton.mp h)

lemma mem_applyRule3_flags (cb : Option ℚ) (st : String × List String)
    (t : String) (h : t ∈ (applyRule3 cb st).2) :
    t ∈ st.2 ∨ t = "LOW_BASE_HARD" := by
  simp only [applyRule3] at h
  split at h
  · split_ifs at h
    · exact mem_of_mem_append_single h
    · exact Or.inl h
    · exact Or.inl h
  · exact Or.inl h

lemma mem_applyRule4_flags (pm : Option (List (String × String))) (sc : ℤ)
    (st : String × List String) (t : String)
    (h : t ∈ (applyRule4 pm sc st).2.2) :
    t ∈ st.2 ∨ t = "MODEL_DISAGREE" := by
  simp only [applyRule4] at h
  split at h
  · exact Or.inl h
  · split_ifs at h <;> first | exact Or.inl h | exact mem_of_mem_append_single h

lemma mem_applyRule5_flags (conf : String) (st : String × List String)
    (t : String) (h : t ∈ (applyRule5 conf st).2) :
    t ∈ st.2 ∨ t = "LOW_CONFIDENCE" := by
  simp only [applyRule5] at h
  split_ifs at h
  · exact mem_of_mem_append_single h
  · exact Or.inl h

lemma mem_applyRule6One_flags (d : EnsSpread) (st : String × List String)
    (t : String) (h : t ∈ (applyRule6One d st).2) :
    t ∈ st.2 ∨ t = "ENS_WIND_SPREAD" ∨ t = "ENS_CAPE_SPREAD" := by
  obtain ⟨w, c⟩ := d
  simp only [applyRule6One] at h
  cases w <;> cases c <;> dsimp only at h <;> (try split_ifs at h) <;>
    (try dsimp only at h) <;>
    (try simp only [List.mem_append, List.mem_singleton] at h) <;> tauto

lemma mem_applyRule6_flags (ens : List (String × EnsSpread))
    (st : String × List String) (t : String)
    (h : t ∈ (applyRule6 ens st).2) :
    t ∈ st.2 ∨ t = "ENS_WIND_SPREAD" ∨ t = "ENS_CAPE_SPREAD" := by
  induction ens generalizing st with
  | nil => exact Or.inl h
  | cons e rest ih =>
    unfold applyRule6 at ih h
    rw [List.foldl_cons] at h
    rcases ih _ h with h2 | h2
    · exact mem_applyRule6One_flags e.2 st t h2
    · exact Or.inr h2

lemma firstNonempty_all_empty (sources : String → At13) (chain : List String)
    (h : ∀ k ∈ chain, sources k = []) : firstNonempty sources chain = [] := by
  induction chain with
  | nil => rfl
  | cons k rest ih =>
    unfold firstNonempty
    rw [h k (List.mem_cons_self k rest), if_pos rfl]
    exact ih (fun x hx => h x (List.mem_cons_of_mem k hx))

/-- C8: when the ECMWF family or the ICON family contributes no 13:00-local
data at all, `compute_model_agreement` returns score `None` with confidence
UNKNOWN (not LOW); and an UNKNOWN confidence never triggers hard rule 5 of
`compute_status`: no LOW_CONFIDENCE flag can appear in the output (given it
was not already present in the input flags), and the whole result is the
same as with any other non-LOW confidence such as HIGH. -/
theorem C8_unknown_confidence_distinct (sources : String → At13)
    (habs : (∀ k ∈ (["ecmwf_ifs025", "ecmwf_ifs04", "ecmwf_hres"] : List String),
              sources k = []) ∨
            (∀ k ∈ (["icon_d2", "icon_eu", "icon_global", "icon_seamless"] : List String),
              sources k = []))
    (flags positives : List String) (s : Option ℚ)
    (ens : List (String × EnsSpread)) (tw : ThermalWindow) (cb : Option ℚ)
    (pm : Option (List (String × String)))
    (hf : "LOW_CONFIDENCE" ∉ flags) :
    compute_model_agreement sources =
      { agreement_score := none, confidence := "UNKNOWN" } ∧
    "LOW_CONFIDENCE" ∉ (compute_status flags positives
      { agreement_score := s, confidence := "UNKNOWN" } ens tw cb pm).flags ∧
    compute_status flags positives
        { agreement_score := s, confidence := "UNKNOWN" } ens tw cb pm =
      compute_status flags positives
        { agreement_score := s, confidence := "HIGH" } ens tw cb pm := by
  have hUnk : ("UNKNOWN" : String) ≠ "LOW" := by decide
  have hHigh : ("HIGH" : String) ≠ "LOW" := by decide
  refine ⟨?_, ?_, ?_⟩
  · unfold compute_model_agreement
    rcases habs with habs | habs
    · rw [firstNonempty_all_empty sources _ habs, if_pos (Or.inl rfl)]
    · rw [firstNonempty_all_empty sources _ habs, if_pos (Or.inr rfl)]
  · intro hmem
    simp only [compute_status] at hmem
    rw [applyRule5_of_ne_low _ _ hUnk] at hmem
    rcases mem_applyRule6_flags ens _ _ hmem with h2 | h2 | h2
    · rcases mem_applyRule4_flags pm _ _ _ h2 with h3 | h3
      · rcases mem_applyRule3_flags cb _ _ h3 with h4 | h4
        · exact hf h4
        · exact absurd h4 (by decide)
      · exact absurd h3 (by decide)
    · exact absurd h2 (by decide)
    · exact absurd h2 (by decide)
  · simp only [compute_status]
    rw [applyRule5_of_ne_low _ _ hUnk, applyRule5_of_ne_low _ _ hHigh]

/-- Witness for C8 at a concrete input: no model data at all, empty flag
list, one positive, a 5-hour window. -/
theorem C8_witness :
    compute_model_agreement (fun _ => []) =
      { agreement_score := none, confidence := "UNKNOWN" } ∧
    "LOW_CONFIDENCE" ∉ (compute_status [] ["GOOD_WSTAR"]
      { agreement_score := none, confidence := "UNKNOWN" } []
      { start := some 10, end_ := some 14, peak_hour := some 12,
        duration_h := 5, peak_lapse := none, peak_cape := none }
      (some 2500) none).flags ∧
    compute_status [] ["GOOD_WSTAR"]
        { agreement_score := none, confidence := "UNKNOWN" } []
        { start := some 10, end_ := some 14, peak_hour := some 12,
          duration_h := 5, peak_lapse := none, peak_cape := none }
        (some 2500) none =
      compute_status [] ["GOOD_WSTAR"]
        { agreement_score := none, confidence := "HIGH" } []
        { start := some 10, end_ := some 14, peak_hour := some 12,
          duration_h := 5, peak_lapse := none, peak_cape := none }
        (some 2500) none :=
  C8_unknown_confidence_distinct (fun _ => []) (Or.inl (by intro k _; rfl))
    [] ["GOOD_WSTAR"] none []
    { start := some 10, end_ := some 14, peak_hour := some 12,
      duration_h := 5, peak_lapse := none, peak_cape := none }
    (some 2500) none (by simp)

/-- C5: the claim states every derived field of a merged hour — cloud base,
lapse rate, W*, gust factor — is recomputed from the already-merged raw
values; in particular that the merged lapse rate equals
`round((t850 - t700) / 1.5, 1)` on the merged temperatures.  This is false
for the lapse rate: the source averages the per-model precomputed lapse
rates (analysis.py line 251).  With ICON at t850 = 10, t700 = 1 and ECMWF at
t850 = 20 with t700 missing, the code yields 6.0 (ICON value copied through)
while recomputation from the merged temperatures would yield 9.3. -/
theorem C5_lapse_rate_counterexample :
    (build_averaged_hour { lapse_rate := lapse_rate (some 10) (some 1) }
       { lapse_rate := lapse_rate (some 20) none } emptyPMHour 500
       (some "icon_d2") (some "ecmwf_ifs025") 8).lapse_rate = some 6 ∧
    lapse_rate_from_merged_temps_spec (some 10) (some 1) (some 20) none =
      some (93/10) ∧
    ((6 : ℚ) ≠ 93/10) := by
  refine ⟨?_, ?_, by norm_num⟩
  · show _avg (lapse_rate (some 10) (some 1)) (lapse_rate (some 20) none) 1
        = some 6
    norm_num [lapse_rate, _avg, pyRoundTo, pyRound0]
  · show lapse_rate (_avg (some 10) (some 20) 2) (_avg (some 1) none 2)
        = some (93/10)
    norm_num [lapse_rate, _avg, pyRoundTo, pyRound0]

/-- C5 (amended): in every merged hour, cloud base, W* and gust factor are
recomputed from the already-merged values (and are `None` when a required
merged input is `None`, per the definitions of `cloudbaseVal`,
`estimate_wstar` and the gust-factor match); the merged lapse rate, however,
is the `_avg` of the per-model precomputed lapse rates — copied from the
single available model when only one family reports it — and is not
recomputed from merged 850/700 hPa temperatures (which the merged record
does not even carry). -/
theorem C5_merged_derived_fields (iv ev gv : PMHour) (elev : ℚ)
    (ik ek : Option String) (h : ℕ) :
    (build_averaged_hour iv ev gv elev ik ek h).cloudbase_msl =
      cloudbaseVal (_avg iv.temp_2m ev.temp_2m 2) (_avg iv.dewpoint ev.dewpoint 2)
        elev ∧
    (build_averaged_hour iv ev gv elev ik ek h).wstar =
      estimate_wstar gv.bl_height
        (match _avg iv.shortwave_radiation ev.shortwave_radiation 0 with
         | none => gv.shortwave_radiation
         | some v => some v)
        (_avg iv.temp_2m ev.temp_2m 2) ∧
    (build_averaged_hour iv ev gv elev ik ek h).gust_factor =
      (match _avg iv.gusts ev.gusts 2, _avg iv.wind_10m ev.wind_10m 2 with
       | some g, some w => some (pyRoundTo 1 (g - w))
       | _, _ => none) ∧
    (build_averaged_hour iv ev gv elev ik ek h).lapse_rate =
      _avg iv.lapse_rate ev.lapse_rate 1 :=
  ⟨rfl, rfl, rfl, rfl⟩

/-- C7: the claim states every merged-hour record carries a per-field
override map alongside the primary-source tag, so any field supplied by some
model has a non-`None` provenance entry.  This is false on the code:
`_src_overrides` is always `None` (analysis.py line 301), and when only GFS
data is present the primary tag is `None` too, even though GFS supplies
`bl_height`. -/
theorem C7_provenance_counterexample :
    (build_averaged_hour emptyPMHour emptyPMHour { bl_height := some 1200 }
       500 none none 8).bl_height = some 1200 ∧
    (build_averaged_hour emptyPMHour emptyPMHour { bl_height := some 1200 }
       500 none none 8)._src = none ∧
    (build_averaged_hour emptyPMHour emptyPMHour { bl_height := some 1200 }
       500 none none 8)._src_overrides = none :=
  ⟨rfl, rfl, rfl⟩

/-- C7 (amended): each merged hour carries only a coarse primary-source
label — "avg" when both an ICON and an ECMWF family member are present,
else the single present key, else `None` — and the per-field override map
is always `None`; GFS-sourced fields have no provenance entry of their
own. -/
theorem C7_provenance_amended (iv ev gv : PMHour) (elev : ℚ)
    (ik ek : Option String) (h : ℕ) :
    (build_averaged_hour iv ev gv elev ik ek h)._src_overrides = none ∧
    (build_averaged_hour iv ev gv elev ik ek h)._src =
      (match ik, ek with
       | some _, some _ => some "avg"
       | some k, none => some k
       | none, some k => some k
       | none, none => none) := by
  cases ik <;> cases ek <;> exact ⟨rfl, rfl⟩

lemma pyRound0R_mono {x y : ℝ} (h : x ≤ y) : pyRound0R x ≤ pyRound0R y := by
  simp only [pyRound0R]
  have hf : ⌊x + 1/2⌋ ≤ ⌊y + 1/2⌋ := Int.floor_le_floor (by linarith)
  by_cases hx : x + 1/2 = ((⌊x + 1/2⌋ : ℤ) : ℝ) ∧ ⌊x + 1/2⌋ % 2 ≠ 0
  · rw [if_pos hx]
    by_cases hy : y + 1/2 = ((⌊y + 1/2⌋ : ℤ) : ℝ) ∧ ⌊y + 1/2⌋ % 2 ≠ 0
    · rw [if_pos hy]; omega
    · rw [if_neg hy]; omega
  · rw [if_neg hx]
    by_cases hy : y + 1/2 = ((⌊y + 1/2⌋ : ℤ) : ℝ) ∧ ⌊y + 1/2⌋ % 2 ≠ 0
    · rw [if_pos hy]
      rcases lt_or_eq_of_le hf with hlt | heq
      · omega
      · exfalso
        apply hx
        have h1 : ((⌊x + 1/2⌋ : ℤ) : ℝ) ≤ x + 1/2 := Int.floor_le _
        have h2 : x + 1/2 ≤ y + 1/2 := by linarith
        rw [heq] at h1
        have h3 : x + 1/2 = ((⌊x + 1/2⌋ : ℤ) : ℝ) := by
          rw [heq]
          have := hy.1
          linarith
        exact ⟨h3, by rw [heq]; exact hy.2⟩
    · rw [if_neg hy]; exact hf

lemma pyRound2R_mono {x y : ℝ} (h : x ≤ y) : pyRound2R x ≤ pyRound2R y := by
  simp only [pyRound2R]
  have h0 := pyRound0R_mono (mul_le_mul_of_nonneg_right h (by norm_num : (0:ℝ) ≤ 100))
  have hcast : ((pyRound0R (x * 100) : ℤ) : ℝ) ≤ ((pyRound0R (y * 100) : ℤ) : ℝ) :=
    Int.cast_le.mpr h0
  linarith

lemma pyRound0R_nonneg {x : ℝ} (hx : 0 ≤ x) : 0 ≤ pyRound0R x := by
  simp only [pyRound0R]
  have hn : 0 ≤ ⌊x + 1/2⌋ := Int.floor_nonneg.mpr (by linarith)
  split_ifs with htie
  · have h2 := htie.2
    omega
  · exact hn

lemma argQ_pos {bl sw t : ℚ} (hb : 10 < bl) (hs : 10 < sw)
    (ht : 200 ≤ t + 27315/100) : 0 < argQ bl sw t := by
  unfold argQ
  have hT : 0 < t + 27315/100 := by linarith
  have hb0 : 0 < bl := by linarith
  have hs0 : 0 < sw := by linarith
  exact div_pos
    (mul_pos (mul_pos (div_pos (by norm_num) hT) hb0)
      (mul_pos (by norm_num) hs0))
    (by norm_num)

lemma estimate_wstar_eq {bl sw t : ℚ} (hb : 10 < bl) (hs : 10 < sw)
    (ht : 200 ≤ t + 27315/100) :
    estimate_wstar (some bl) (some sw) (some t) = some (wstarVal bl sw t) := by
  have h1 : ¬(bl = 0 ∨ bl ≤ 10 ∨ sw = 0 ∨ sw ≤ 10) := by
    push_neg
    exact ⟨by intro h0; rw [h0] at hb; norm_num at hb, by linarith,
      by intro h0; rw [h0] at hs; norm_num at hs, by linarith⟩
  have h2 : ¬(t + 27315/100 < 200) := not_lt.mpr ht
  simp only [estimate_wstar]
  rw [if_neg h1, if_neg h2, if_pos (argQ_pos hb hs ht)]

lemma argQ_mono {t bl₁ sw₁ bl₂ sw₂ : ℚ} (ht : 200 ≤ t + 27315/100)
    (hb1 : 10 < bl₁) (hs1 : 10 < sw₁) (hb : bl₁ ≤ bl₂) (hs : sw₁ ≤ sw₂) :
    argQ bl₁ sw₁ t ≤ argQ bl₂ sw₂ t := by
  unfold argQ
  have hT : 0 < t + 27315/100 := by linarith
  have e : ∀ b s : ℚ, (981/100 / (t + 27315/100)) * b * ((2/5) * s) /
      ((11/10) * 1005) =
      (981/100 / (t + 27315/100) * (2/5) / ((11/10) * 1005)) * (b * s) := by
    intro b s
    ring
  rw [e, e]
  apply mul_le_mul_of_nonneg_left (mul_le_mul hb hs (by linarith) (by linarith))
  exact div_nonneg (mul_nonneg (div_nonneg (by norm_num) hT.le) (by norm_num))
    (by norm_num)

lemma wstarVal_mono {t bl₁ sw₁ bl₂ sw₂ : ℚ} (ht : 200 ≤ t + 27315/100)
    (hb1 : 10 < bl₁) (hs1 : 10 < sw₁) (hb : bl₁ ≤ bl₂) (hs : sw₁ ≤ sw₂) :
    wstarVal bl₁ sw₁ t ≤ wstarVal bl₂ sw₂ t := by
  unfold wstarVal
  apply pyRound2R_mono
  apply Real.rpow_le_rpow
  · exact_mod_cast (argQ_pos hb1 hs1 ht).le
  · exact_mod_cast argQ_mono ht hb1 hs1 hb hs
  · norm_num

/-- C9: for a fixed temperature satisfying the 200 K sanity floor and inputs
above the validity guards, `estimate_wstar` is defined (returns the rounded
cube root of the buoyancy argument) and is monotone non-decreasing when
boundary-layer height and shortwave radiation increase. -/
theorem C9_wstar_monotone (t bl₁ sw₁ bl₂ sw₂ : ℚ) (ht : 200 ≤ t + 27315/100)
    (hb1 : 10 < bl₁) (hs1 : 10 < sw₁) (hb : bl₁ ≤ bl₂) (hs : sw₁ ≤ sw₂) :
    estimate_wstar (some bl₁) (some sw₁) (some t) = some (wstarVal bl₁ sw₁ t) ∧
    estimate_wstar (some bl₂) (some sw₂) (some t) = some (wstarVal bl₂ sw₂ t) ∧
    wstarVal bl₁ sw₁ t ≤ wstarVal bl₂ sw₂ t :=
  ⟨estimate_wstar_eq hb1 hs1 ht,
   estimate_wstar_eq (lt_of_lt_of_le hb1 hb) (lt_of_lt_of_le hs1 hs) ht,
   wstarVal_mono ht hb1 hs1 hb hs⟩

/-- Witness for C9 at concrete inputs: temperature 20 °C, boundary layer
100 → 200 m, shortwave 500 → 600 W/m². -/
theorem C9_witness :
    estimate_wstar (some 100) (some 500) (some 20) = some (wstarVal 100 500 20) ∧
    estimate_wstar (some 200) (some 600) (some 20) = some (wstarVal 200 600 20) ∧
    wstarVal 100 500 20 ≤ wstarVal 200 600 20 :=
  C9_wstar_monotone 20 100 500 200 600 (by norm_num) (by norm_num)
    (by norm_num) (by norm_num) (by norm_num)

lemma wstarVal_nonneg (bl sw t : ℚ) (ha : 0 ≤ argQ bl sw t) :
    0 ≤ wstarVal bl sw t := by
  unfold wstarVal pyRound2R
  have hx : (0:ℝ) ≤ ((argQ bl sw t : ℚ) : ℝ) ^ ((1:ℝ)/3) :=
    Real.rpow_nonneg (by exact_mod_cast ha) _
  have h0 := pyRound0R_nonneg (x := ((argQ bl sw t : ℚ) : ℝ) ^ ((1:ℝ)/3) * 100)
    (by linarith)
  have hcast : (0:ℝ) ≤ ((pyRound0R (((argQ bl sw t : ℚ) : ℝ) ^ ((1:ℝ)/3) * 100) : ℤ) : ℝ) := by
    exact_mod_cast h0
  linarith

/-- C10: the claim states that once the guards pass, `estimate_wstar` always
returns a positive rounded number and never `0.0`.  The non-positive branch
is indeed unreachable, but the rounded value can be `0.0`: at boundary-layer
height 11, shortwave 11 and temperature `10 ^ 10` °C the buoyancy argument
is positive yet so small that its cube root rounds to 0.00. -/
theorem C10_wstar_zero_counterexample :
    estimate_wstar (some 11) (some 11) (some (10 ^ 10)) = some 0 := by
  rw [estimate_wstar_eq (by norm_num) (by norm_num) (by norm_num)]
  have ha : (0:ℚ) < argQ 11 11 (10 ^ 10) :=
    argQ_pos (by norm_num) (by norm_num) (by norm_num)
  have hlt : argQ 11 11 (10 ^ 10) < 1/8000000 := by
    unfold argQ
    norm_num
  have ha' : (0:ℝ) < ((argQ 11 11 (10 ^ 10) : ℚ) : ℝ) := by exact_mod_cast ha
  have hlt' : ((argQ 11 11 (10 ^ 10) : ℚ) : ℝ) < 1/8000000 := by
    have hr := (Rat.cast_lt (K := ℝ)).mpr hlt
    simpa using hr
  have hcub : ((argQ 11 11 (10 ^ 10) : ℚ) : ℝ) ^ ((1:ℝ)/3) < 1/200 := by
    have h8 : ((1:ℝ)/8000000) = (1/200 : ℝ) ^ (3:ℝ) := by
      rw [show (3:ℝ) = ((3:ℕ) : ℝ) by norm_num, Real.rpow_natCast]
      norm_num
    calc ((argQ 11 11 (10 ^ 10) : ℚ) : ℝ) ^ ((1:ℝ)/3)
        < ((1:ℝ)/8000000) ^ ((1:ℝ)/3) :=
          Real.rpow_lt_rpow ha'.le hlt' (by norm_num)
      _ = ((1/200 : ℝ) ^ (3:ℝ)) ^ ((1:ℝ)/3) := by rw [h8]
      _ = (1/200 : ℝ) ^ ((3:ℝ) * ((1:ℝ)/3)) := by
          rw [← Real.rpow_mul (by norm_num)]
      _ = (1/200 : ℝ) ^ (1:ℝ) := by norm_num
      _ = 1/200 := Real.rpow_one _
  have hpos : (0:ℝ) < ((argQ 11 11 (10 ^ 10) : ℚ) : ℝ) ^ ((1:ℝ)/3) :=
    Real.rpow_pos_of_pos ha' _
  have hfloor : ⌊((argQ 11 11 (10 ^ 10) : ℚ) : ℝ) ^ ((1:ℝ)/3) * 100 + 1/2⌋ = 0 := by
    rw [Int.floor_eq_zero_iff]
    constructor
    · linarith
    · linarith
  unfold wstarVal pyRound2R pyRound0R
  rw [hfloor]
  rw [if_neg]
  · norm_num
  · intro hcon
    have := hcon.2
    omega

/-- C10 (amended): whenever the guards of `estimate_wstar` pass
(boundary-layer height > 10, shortwave > 10, absolute temperature ≥ 200 K),
the buoyancy argument is strictly positive, so the non-positive branch
returning `None` is unreachable and the function returns the rounded
non-negative cube root; the rounded value can however be `0.0` for extreme
inputs, so "never returns 0.0" does not hold. -/
theorem C10_wstar_guards_amended (bl sw t : ℚ) (hb : 10 < bl) (hs : 10 < sw)
    (ht : 200 ≤ t + 27315/100) :
    0 < argQ bl sw t ∧
    estimate_wstar (some bl) (some sw) (some t) = some (wstarVal bl sw t) ∧
    0 ≤ wstarVal bl sw t :=
  ⟨argQ_pos hb hs ht, estimate_wstar_eq hb hs ht,
   wstarVal_nonneg bl sw t (argQ_pos hb hs ht).le⟩

/-- Witness for the amended C10 at concrete inputs: boundary layer 100 m,
shortwave 500 W/m², temperature 20 °C. -/
theorem C10_witness :
    0 < argQ 100 500 20 ∧
    estimate_wstar (some 100) (some 500) (some 20) = some (wstarVal 100 500 20) ∧
    0 ≤ wstarVal 100 500 20 :=
  C10_wstar_guards_amended 100 500 20 (by norm_num) (by norm_num) (by norm_num)
